import Mathlib

/-!
Shallow embedding of the jm1.openstack Ansible collection's two modules,
`plugins/modules/floating_ip.py` and `plugins/modules/image_import.py`.

Strings are modelled as `List Char` (`Str`).  Optional module parameters are
`Option Str`; Python truthiness of such a value (`if x:`) is `otruthy`.
The cloud collaborator (openstacksdk) is an abstract record of pure
functions; every collaborator call additionally appends an event to a trace,
so each embedded procedure returns `Except Error Result × List Event`.
-/

set_option linter.unusedVariables false

abbrev Str := List Char

deriving instance DecidableEq for Except

/-- Python truthiness of an optional string: `None` and the empty string are falsy. -/
def otruthy : Option Str → Bool
  | none => false
  | some s => decide (s ≠ [])

/-- Python `s.split(sep, 1)` at the first `':'`: `none` when the string holds no colon. -/
def splitFirstColon : Str → Option (Str × Str)
  | [] => none
  | c :: cs =>
    if c = ':' then some ([], cs)
    else
      match splitFirstColon cs with
      | some (a, b) => some (c :: a, b)
      | none => none

/-- Index of the last occurrence of a character, as in Python `s.rfind(c)` (none when absent). -/
def lastIdxOf (ch : Char) : Str → Option Nat
  | [] => none
  | c :: cs =>
    match lastIdxOf ch cs with
    | some i => some (i + 1)
    | none => if c = ch then some 0 else none

/-- Python `os.path.basename` (posix): everything after the last slash. -/
def basename (p : Str) : Str :=
  match lastIdxOf '/' p with
  | none => p
  | some i => p.drop (i + 1)

/-- The extension component of Python `os.path.splitext(p)` (CPython `genericpath._splitext`
with posix separators): within the final path component, split at the last dot provided a
non-dot character precedes that dot; leading dots of a filename never start an extension. -/
def splitextExt (p : Str) : Str :=
  let base := basename p
  match lastIdxOf '.' base with
  | none => []
  | some i => if (base.take i).any (fun c => decide (c ≠ '.')) then base.drop i else []

/-- `strStarts pat s` is true when `pat` begins `s`. -/
def strStarts : Str → Str → Bool
  | [], _ => true
  | _ :: _, [] => false
  | p :: ps, s :: ss => decide (p = s) && strStarts ps ss

/-- The remainder of `s` after the first occurrence of `pat`; models the capture of
Python `re.findall("filename=(.+)", cd)[0]` (which is everything after the first
occurrence of the literal pattern, greedily to the end of the header line). -/
def findAfter (pat : Str) : Str → Option Str
  | [] => if pat = [] then some [] else none
  | c :: cs =>
    if strStarts pat (c :: cs) then some ((c :: cs).drop pat.length)
    else findAfter pat cs

/-- Python `os.path.join(a, b)` (posix, two arguments). -/
def pathJoin (a b : Str) : Str :=
  if b.head? = some '/' then b
  else if a = [] ∨ a.getLast? = some '/' then a ++ b
  else a ++ '/' :: b

/-- Characters CPython's `urlsplit` accepts inside a URI scheme. -/
def schemeChar (c : Char) : Bool :=
  c.isAlphanum || c = '+' || c = '-' || c = '.'

/-- The scheme recognition of CPython `urllib.parse.urlsplit`: a non-empty run of
scheme characters before the first colon is the (lowercased) scheme, else no scheme. -/
def uriSchemeSplit (u : Str) : Str × Str :=
  match splitFirstColon u with
  | some (a, b) =>
    if a ≠ [] ∧ a.all schemeChar then (a.map Char.toLower, b) else ([], u)
  | none => ([], u)

def uriScheme (u : Str) : Str := (uriSchemeSplit u).1

/-- `uri_is_url = uri_scheme != 'file' and len(uri_scheme) > 0` (both modules). -/
def uriIsUrl (u : Str) : Bool :=
  decide (uriScheme u ≠ ("file".toList)) && decide (0 < (uriScheme u).length)

/-- Drop the `//netloc` part after the scheme, as `urlsplit` does. -/
def dropNetloc (u : Str) : Str :=
  match u with
  | '/' :: '/' :: rest =>
    rest.dropWhile (fun c => decide (c ≠ '/') && decide (c ≠ '?') && decide (c ≠ '#'))
  | _ => u

def takeUntilChar (ch : Char) (s : Str) : Str := s.takeWhile (fun c => decide (c ≠ ch))

/-- The `.path` component of `urlsplit`: after scheme and netloc, before fragment and query. -/
def urlPath (u : Str) : Str :=
  takeUntilChar '?' (takeUntilChar '#' (dropNetloc (uriSchemeSplit u).2))

/-! ## Floating IP module (`plugins/modules/floating_ip.py`) -/

structure Project where
  id : Str
  name : Str
deriving DecidableEq, Repr

structure Network where
  id : Str
  name : Str
deriving DecidableEq, Repr

structure FloatingIp where
  floating_ip_address : Str
deriving DecidableEq, Repr

/-- The filter dict passed to `cloud.search_floating_ips`; `floating_ip_address = none`
stands for the key being absent or `None`-valued. -/
structure FipFilter where
  network : Str
  tenant_id : Str
  floating_ip_address : Option Str
deriving DecidableEq, Repr

inductive FipEvent where
  | getProject (name_or_id : Str)
  | searchNetworks (name_or_id : Str) (tenant : Option Str)
  | searchFips (filt : FipFilter)
  | createIp (addr : Option Str) (network_id : Str) (tenant_id : Str) (timeout : Nat) (wait : Bool)
  | deleteIp (addr : Str)
deriving DecidableEq, Repr

inductive FipError where
  | projectNotFound (name_or_id : Option Str)
  | networkInvalidOrAmbiguous (name_or_id : Str)
  | fipAmbiguous (addr : Option Str)
  | assertionFailed
  | nameError
deriving DecidableEq, Repr

/-- The cloud collaborator as used by the floating-ip module. -/
structure FipCloud where
  current_project : Project
  get_project : Str → Option Project
  search_networks : Str → Option Str → List Network
  search_floating_ips : FipFilter → List FloatingIp
  create_ip : Option Str → Str → Str → Nat → Bool → FloatingIp

/-- `get_project` of floating_ip.py (lines 120-131). -/
def get_project (name_or_id : Option Str) (cloud : FipCloud) :
    Except FipError Project × List FipEvent :=
  if otruthy name_or_id = false then (.ok cloud.current_project, [])
  else
    match name_or_id with
    | none => (.ok cloud.current_project, [])
    | some n =>
      if n = cloud.current_project.name ∨ n = cloud.current_project.id then
        (.ok cloud.current_project, [])
      else
        match cloud.get_project n with
        | some p => (.ok p, [.getProject n])
        | none => (.error (.projectNotFound (some n)), [.getProject n])

/-- The tenant filter passed to `search_networks`: `{'tenant_id': project_id} if project_id else None`. -/
def tenantFilter (project_id : Str) : Option Str :=
  if project_id ≠ [] then some project_id else none

/-- `get_network` of floating_ip.py (lines 134-145). -/
def get_network (name_or_id : Str) (project_id : Str) (cloud : FipCloud) :
    Except FipError Network × List FipEvent :=
  let networks := cloud.search_networks name_or_id (tenantFilter project_id)
  let ev : List FipEvent := [.searchNetworks name_or_id (tenantFilter project_id)]
  match networks with
  | [] => (.error (.networkInvalidOrAmbiguous name_or_id), ev)
  | [n] => (.ok n, ev)
  | _ :: _ :: _ => (.error (.networkInvalidOrAmbiguous name_or_id), ev)

/-- The six-component tuple returned by `allocate`/`release`. -/
structure FipOpResult where
  changed : Bool
  floating_ip_address : Option Str
  floating_network_name : Str
  floating_network_id : Str
  project_name : Str
  project_id : Str
deriving DecidableEq, Repr

/-- The fip filter built in `allocate`: address key added only when truthy (lines 161-164). -/
def allocFilter (addr : Option Str) (network : Network) (project : Project) : FipFilter :=
  { network := network.id, tenant_id := project.id,
    floating_ip_address := if otruthy addr then addr else none }

/-- `allocate` of floating_ip.py (lines 148-179). -/
def allocate (floating_ip_address : Option Str) (floating_network_name : Str)
    (project_name : Option Str) (timeout : Nat) (wait : Bool) (cloud : FipCloud) :
    Except FipError FipOpResult × List FipEvent :=
  match get_project project_name cloud with
  | (.error e, t1) => (.error e, t1)
  | (.ok project, t1) =>
    match get_network floating_network_name project.id cloud with
    | (.error e, t2) => (.error e, t1 ++ t2)
    | (.ok network, t2) =>
      let filt := allocFilter floating_ip_address network project
      let fips := cloud.search_floating_ips filt
      let t3 := t1 ++ t2 ++ [.searchFips filt]
      match fips with
      | [] =>
        let fip := cloud.create_ip floating_ip_address network.id project.id timeout wait
        (.ok ⟨true, some fip.floating_ip_address, network.name, network.id, project.name, project.id⟩,
         t3 ++ [.createIp floating_ip_address network.id project.id timeout wait])
      | f :: _ =>
        (.ok ⟨false, some f.floating_ip_address, network.name, network.id, project.name, project.id⟩,
         t3)

/-- The fip filter built in `release` (lines 195-199): the address key is always present. -/
def releaseFilter (addr : Option Str) (network : Network) (project : Project) : FipFilter :=
  { network := network.id, tenant_id := project.id, floating_ip_address := addr }

/-- `release` of floating_ip.py (lines 182-213), including the `assert len(fips) == 1`
and the (dead) `if len(fips) > 1: raise ValueError` that follows it. -/
def release (floating_ip_address : Option Str) (floating_network_name : Str)
    (project_name : Option Str) (timeout : Nat) (wait : Bool) (cloud : FipCloud) :
    Except FipError FipOpResult × List FipEvent :=
  match get_project project_name cloud with
  | (.error e, t1) => (.error e, t1)
  | (.ok project, t1) =>
    match get_network floating_network_name project.id cloud with
    | (.error e, t2) => (.error e, t1 ++ t2)
    | (.ok network, t2) =>
      let filt := releaseFilter floating_ip_address network project
      let fips := cloud.search_floating_ips filt
      let t3 := t1 ++ t2 ++ [.searchFips filt]
      match fips with
      | [] =>
        (.ok ⟨false, floating_ip_address, network.name, network.id, project.name, project.id⟩, t3)
      | fip :: rest =>
        if (fip :: rest).length ≠ 1 then (.error .assertionFailed, t3)
        else if (fip :: rest).length > 1 then (.error (.fipAmbiguous floating_ip_address), t3)
        else
          (.ok ⟨true, some fip.floating_ip_address, network.name, network.id, project.name, project.id⟩,
           t3 ++ [.deleteIp fip.floating_ip_address])

structure FipParams where
  floating_ip_address : Option Str
  floating_network_name : Str
  project_name : Option Str
  state : Str
  timeout : Nat
  wait : Bool
  check_mode : Bool
deriving DecidableEq, Repr

/-- The result dict of floating_ip.py's `core`: the check-mode dict (lines 227-234) has
fewer keys than the full dict (lines 255-264), hence two constructors. -/
inductive FipCoreOut where
  | checkMode (changed : Bool) (floating_ip_address : Option Str) (floating_network_name : Str)
      (project_name : Option Str) (state : Str) (timeout : Nat) (wait : Bool)
  | full (changed : Bool) (floating_ip_address : Option Str) (floating_network_name : Str)
      (floating_network_id : Str) (project_name : Str) (project_id : Str)
      (state : Str) (timeout : Nat) (wait : Bool)
deriving DecidableEq, Repr

/-- `core` of floating_ip.py (lines 216-264).  A state other than present/absent leaves
`changed` unbound in Python, raising `NameError` at the final dict construction. -/
def fipCore (p : FipParams) (cloud : FipCloud) :
    Except FipError FipCoreOut × List FipEvent :=
  if p.check_mode then
    (.ok (.checkMode false p.floating_ip_address p.floating_network_name p.project_name
            p.state p.timeout p.wait), [])
  else if p.state = "present".toList then
    match allocate p.floating_ip_address p.floating_network_name p.project_name
        p.timeout p.wait cloud with
    | (.error e, t) => (.error e, t)
    | (.ok r, t) =>
      (.ok (.full r.changed r.floating_ip_address r.floating_network_name
              r.floating_network_id r.project_name r.project_id p.state p.timeout p.wait), t)
  else if p.state = "absent".toList then
    match release p.floating_ip_address p.floating_network_name p.project_name
        p.timeout p.wait cloud with
    | (.error e, t) => (.error e, t)
    | (.ok r, t) =>
      (.ok (.full r.changed r.floating_ip_address r.floating_network_name
              r.floating_network_id r.project_name r.project_id p.state p.timeout p.wait), t)
  else (.error .nameError, [])

/-- Mutating collaborator calls of the floating-ip module. -/
def isFipMut : FipEvent → Bool
  | .createIp _ _ _ _ _ => true
  | .deleteIp _ => true
  | _ => false

def fipMutCount (t : List FipEvent) : Nat := t.countP (fun e => isFipMut e)

/-- Floating-ip inventory queries and mutations (everything past network resolution). -/
def isFipQueryOrMut : FipEvent → Bool
  | .searchFips _ => true
  | .createIp _ _ _ _ _ => true
  | .deleteIp _ => true
  | _ => false

def fipQueryOrMutCount (t : List FipEvent) : Nat := t.countP (fun e => isFipQueryOrMut e)

/-- True when some floating-ip query in the trace filters on the given network id. -/
def usesNetwork (t : List FipEvent) (network_id : Str) : Bool :=
  t.any (fun e =>
    match e with
    | .searchFips filt => decide (filt.network = network_id)
    | _ => false)

def isErr {ε α : Type} (x : Except ε α) : Bool :=
  match x with
  | .error _ => true
  | .ok _ => false

/-! ## Image import module (`plugins/modules/image_import.py`) -/

structure Image where
  id : Str
  name : Str
  size : Nat
  disk_format : Str
deriving DecidableEq, Repr

/-- The response object of `open_url`; only the Content-Disposition header is consumed. -/
structure RemoteResponse where
  content_disposition : Option Str
deriving DecidableEq, Repr

/-- The keyword arguments of the single `cloud.create_image` call (lines 168-182). -/
structure CreateImageArgs where
  name : Option Str
  filename : Str
  disk_format : Option Str
  wait : Bool
  timeout : Nat
  id : Option Str
  validate_checksum : Bool
  checksum_alg : Option Str
  checksum_val : Option Str
deriving DecidableEq, Repr

inductive ImgEvent where
  | openUrl (uri : Str)
  | download (uri : Str) (path : Str)
  | getImage (name_or_id : Option Str)
  | digestFile (path : Str) (algorithm : Option Str)
  | createImage (args : CreateImageArgs)
  | deleteImage (name_or_id : Option Str) (wait : Bool) (timeout : Nat)
deriving DecidableEq, Repr

inductive ImgError where
  | pathMissing (path : Str)
  | checksumMismatch (expected : Option Str) (actual : Str)
  | imageExistsAlready (name_or_id : Option Str)
  | nameUnresolvedUrl
  | nameUnresolvedLocal
  | formatUnresolvedUrl
  | formatUnresolvedLocal
  | deleteNameRequiredUrl
  | deleteNameRequired
  | typeError
  | checksumParamFormat
  | nameErrorState
deriving DecidableEq, Repr

/-- The collaborators used by the image module: the cloud, the file system
(`os.path.exists` / `os.path.getsize`), the host digest helper
(`module.digest_from_file`), the url opener, and the temporary directory name. -/
structure ImgCloud where
  get_image : Option Str → Option Image
  create_image : CreateImageArgs → Image
  path_exists : Str → Bool
  getsize : Str → Nat
  digest_from_file : Str → Option Str → Str
  open_url : Str → RemoteResponse
  tmpdir : Str

/-- `id if id else name` (Python truthiness), the identity key for image lookups. -/
def pyKey (id name : Option Str) : Option Str :=
  if otruthy id then id else name

/-- The `create_image` kwargs of lines 168-182: `id` only when truthy,
`validate_checksum` plus the algorithm-named checksum kwarg only for md5/sha256. -/
def createArgs (algorithm checksum format id name : Option Str)
    (timeout : Nat) (path : Str) (wait : Bool) : CreateImageArgs :=
  let validate := decide (algorithm = some ("md5".toList) ∨ algorithm = some ("sha256".toList))
  { name := name, filename := path, disk_format := format, wait := wait, timeout := timeout,
    id := if otruthy id then id else none,
    validate_checksum := validate,
    checksum_alg := if validate then algorithm else none,
    checksum_val := if validate then checksum else none }

/-- Tail of `import_from_disk` (lines 160-187): the exists-already check, size probe,
kwargs assembly and the single `create_image` call. -/
def createImageStep (algorithm checksum format id name : Option Str)
    (timeout : Nat) (path : Str) (wait : Bool) (cloud : ImgCloud) :
    Except ImgError (Str × Nat) × List ImgEvent :=
  let key := pyKey id name
  match cloud.get_image key with
  | some _ => (.error (.imageExistsAlready key), [.getImage key])
  | none =>
    let args := createArgs algorithm checksum format id name timeout path wait
    let image := cloud.create_image args
    (.ok (image.id, image.size), [.getImage key, .createImage args])

/-- `import_from_disk` of image_import.py (lines 138-187): existence check of the local
path, optional checksum verification, then upload.  The size comparison after upload
(lines 184-185) only logs and is not modelled as an event. -/
def import_from_disk (algorithm checksum format id name : Option Str)
    (timeout : Nat) (path : Str) (wait : Bool) (cloud : ImgCloud) :
    Except ImgError (Str × Nat) × List ImgEvent :=
  if cloud.path_exists path = false then
    (.error (.pathMissing path), [])
  else if otruthy checksum then
    let checksum_on_disk := cloud.digest_from_file path algorithm
    if checksum ≠ some checksum_on_disk then
      (.error (.checksumMismatch checksum checksum_on_disk), [.digestFile path algorithm])
    else
      match createImageStep algorithm checksum format id name timeout path wait cloud with
      | (r, t) => (r, .digestFile path algorithm :: t)
  else
    createImageStep algorithm checksum format id name timeout path wait cloud

/-- The shared format-inference of lines 229-236 and 288-295: keep an explicit truthy
format; otherwise take `os.path.splitext(name)[-1]`, strip the leading dot only when
the extension is longer than one character, and yield `none` (the ValueError) when
the result is still falsy. -/
def inferFormat (format : Option Str) (name : Str) : Option Str :=
  if otruthy format then format
  else
    let f0 := splitextExt name
    let f1 := if f0 ≠ [] ∧ f0.length > 1 then f0.drop 1 else f0
    if f1 = [] then none else some f1

/-- The format a falsy explicit format is replaced with (the derivation of
lines 230-233 and 289-292); empty means the ValueError is raised. -/
def stripDotFmt (name : Str) : Str :=
  let f0 := splitextExt name
  if f0 ≠ [] ∧ f0.length > 1 then f0.drop 1 else f0

/-- The `filename` variable of the url branch after its three fallbacks
(lines 208-221): Content-Disposition capture, then the basename of the url path,
then the caller-supplied name. -/
def urlFilename (resp : RemoteResponse) (u : Str) (name : Option Str) : Option Str :=
  let f1 : Option Str :=
    match resp.content_disposition with
    | some cd =>
      if cd ≠ [] then
        match findAfter ("filename=".toList) cd with
        | some rest => if rest = [] then none else some rest
        | none => none
      else none
    | none => none
  let f2 : Option Str := if otruthy f1 then f1 else some (basename (urlPath u))
  if otruthy f2 then f2 else name

/-- The (filename, name) pair of the url branch after lines 208-227;
`none` is the `ValueError('no name given and name could not be derived from uri')`. -/
def urlNames (resp : RemoteResponse) (u : Str) (name : Option Str) : Option (Str × Str) :=
  match urlFilename resp u name, name with
  | some fs, some n => if fs = [] then none else some (fs, if n = [] then fs else n)
  | some fs, none => if fs = [] then none else some (fs, fs)
  | none, _ => none

/-- The five-component tuple returned by `import_` and `delete`. -/
structure ImgOpResult where
  changed : Bool
  id : Option Str
  name : Option Str
  size : Option Nat
  format : Option Str
deriving DecidableEq, Repr

/-- The url branch of `import_` (lines 204-266): open the url, resolve name and format
(both BEFORE the existence lookup), look the image up, and only on a miss download the
content and upload it from disk. -/
def importUrl (algorithm checksum format id name : Option Str) (timeout : Nat)
    (u : Str) (wait : Bool) (cloud : ImgCloud) :
    Except ImgError ImgOpResult × List ImgEvent :=
  let resp := cloud.open_url u
  let t0 : List ImgEvent := [.openUrl u]
  match urlNames resp u name with
  | none => (.error .nameUnresolvedUrl, t0)
  | some (filename, name1) =>
    match inferFormat format name1 with
    | none => (.error .formatUnresolvedUrl, t0)
    | some fmt =>
      let key := pyKey id (some name1)
      match cloud.get_image key with
      | some image =>
        (.ok ⟨false, some image.id, some image.name, some image.size, some image.disk_format⟩,
         t0 ++ [.getImage key])
      | none =>
        let local_path := pathJoin cloud.tmpdir filename
        let t1 := t0 ++ [.getImage key, .download u local_path]
        match import_from_disk algorithm checksum (some fmt) id (some name1)
            timeout local_path wait cloud with
        | (.error e, t2) => (.error e, t1 ++ t2)
        | (.ok (newId, size), t2) =>
          (.ok ⟨true, some newId, some name1, some size, some fmt⟩, t1 ++ t2)

/-- Name/key resolution of the local branch of `import_` (lines 269-276);
errors when neither id nor name is given and the basename of the uri is empty. -/
def localKeyRes (id name : Option Str) (u : Str) :
    Except ImgError (Option Str × Option Str) :=
  let k0 := pyKey id name
  if otruthy k0 then .ok (name, k0)
  else
    let n1 := basename u
    if n1 = [] then .error .nameUnresolvedLocal
    else .ok (some n1, some n1)

/-- Format resolution of the local branch (lines 288-295).  When no truthy format is
given and `name` is still `None` (possible when only an id was supplied), Python calls
`os.path.splitext(None)`, which raises `TypeError`. -/
def localInferFormat (format : Option Str) (name : Option Str) : Except ImgError Str :=
  if otruthy format then
    match format with
    | some f => .ok f
    | none => .error .typeError
  else
    match name with
    | none => .error .typeError
    | some n =>
      match inferFormat none n with
      | some g => .ok g
      | none => .error .formatUnresolvedLocal

/-- The local branch of `import_` (lines 268-309): resolve the identity key, look the
image up, infer the format only on a miss, then upload from the local path. -/
def importLocal (algorithm checksum format id name : Option Str) (timeout : Nat)
    (u : Str) (wait : Bool) (cloud : ImgCloud) :
    Except ImgError ImgOpResult × List ImgEvent :=
  match localKeyRes id name u with
  | .error e => (.error e, [])
  | .ok (name1, key) =>
    match cloud.get_image key with
    | some image =>
      (.ok ⟨false, some image.id, some image.name, some image.size, some image.disk_format⟩,
       [.getImage key])
    | none =>
      match localInferFormat format name1 with
      | .error e => (.error e, [.getImage key])
      | .ok fmt =>
        match import_from_disk algorithm checksum (some fmt) id name1 timeout u wait cloud with
        | (.error e, t2) => (.error e, .getImage key :: t2)
        | (.ok (newId, size), t2) =>
          (.ok ⟨true, some newId, name1, some size, some fmt⟩, .getImage key :: t2)

/-- `import_` of image_import.py (lines 190-309). `uri = None` would make
`urlsplit` raise a TypeError (unreachable: uri is required when state is present). -/
def import_ (algorithm checksum format id name : Option Str) (timeout : Nat)
    (uri : Option Str) (wait : Bool) (cloud : ImgCloud) :
    Except ImgError ImgOpResult × List ImgEvent :=
  match uri with
  | none => (.error .typeError, [])
  | some u =>
    if uriIsUrl u then importUrl algorithm checksum format id name timeout u wait cloud
    else importLocal algorithm checksum format id name timeout u wait cloud

/-- Name/key resolution of `delete` (lines 322-336): url locators are rejected when no
id or name is given, and an empty basename is an error. -/
def deleteKeyRes (id name : Option Str) (uri : Option Str) :
    Except ImgError (Option Str × Option Str) :=
  let k0 := pyKey id name
  if otruthy k0 then .ok (name, k0)
  else
    match uri with
    | none => .error .typeError
    | some u =>
      if uriIsUrl u then .error .deleteNameRequiredUrl
      else
        let n1 := basename u
        if n1 = [] then .error .deleteNameRequired
        else .ok (some n1, some n1)

/-- `delete` of image_import.py (lines 312-354). -/
def delete (algorithm checksum format id name : Option Str) (timeout : Nat)
    (uri : Option Str) (wait : Bool) (cloud : ImgCloud) :
    Except ImgError ImgOpResult × List ImgEvent :=
  match deleteKeyRes id name uri with
  | .error e => (.error e, [])
  | .ok (name1, key) =>
    match cloud.get_image key with
    | none => (.ok ⟨false, id, name1, none, none⟩, [.getImage key])
    | some image =>
      (.ok ⟨true, some image.id, some image.name, some image.size, some image.disk_format⟩,
       [.getImage key, .deleteImage key wait timeout])

structure ImgParams where
  checksum : Option Str
  format : Option Str
  id : Option Str
  name : Option Str
  state : Str
  timeout : Nat
  uri : Option Str
  wait : Bool
  check_mode : Bool
deriving DecidableEq, Repr

/-- The checksum split of `core` (lines 369-376): a truthy checksum is split at the
first colon into (algorithm, value); no colon means `fail_json`. -/
def parseChecksum (raw : Option Str) : Except ImgError (Option Str × Option Str) :=
  if otruthy raw then
    match raw with
    | some s =>
      (match splitFirstColon s with
       | some (a, v) => .ok (some a, some v)
       | none => .error .checksumParamFormat)
    | none => .ok (none, none)
  else .ok (none, none)

/-- `"%s:%s" % (algorithm, checksum) if checksum is not None else None` (lines 381, 418). -/
def echoChecksum (algorithm checksum : Option Str) : Option Str :=
  match checksum with
  | none => none
  | some v =>
    some ((match algorithm with | some a => a | none => "None".toList) ++ ':' :: v)

/-- The result dict of image_import.py's `core`: the check-mode dict (lines 379-388)
has no `size` key; the full dict is lines 415-426. -/
inductive ImgCoreOut where
  | checkMode (changed : Bool) (checksum : Option Str) (format : Option Str) (id : Option Str)
      (name : Option Str) (state : Str) (timeout : Nat) (uri : Option Str) (wait : Bool)
  | full (changed : Bool) (size : Option Nat) (checksum : Option Str) (format : Option Str)
      (id : Option Str) (name : Option Str) (state : Str) (timeout : Nat) (uri : Option Str)
      (wait : Bool)
deriving DecidableEq, Repr

/-- `core` of image_import.py (lines 357-426).  Note the checksum split (and its
possible failure) happens BEFORE the check-mode branch. -/
def imgCore (p : ImgParams) (cloud : ImgCloud) :
    Except ImgError ImgCoreOut × List ImgEvent :=
  match parseChecksum p.checksum with
  | .error e => (.error e, [])
  | .ok (algorithm, checksum) =>
    if p.check_mode then
      (.ok (.checkMode false (echoChecksum algorithm checksum) p.format p.id p.name
              p.state p.timeout p.uri p.wait), [])
    else if p.state = "present".toList then
      match import_ algorithm checksum p.format p.id p.name p.timeout p.uri p.wait cloud with
      | (.error e, t) => (.error e, t)
      | (.ok r, t) =>
        (.ok (.full r.changed r.size (echoChecksum algorithm checksum) r.format r.id r.name
                p.state p.timeout p.uri p.wait), t)
    else if p.state = "absent".toList then
      match delete algorithm checksum p.format p.id p.name p.timeout p.uri p.wait cloud with
      | (.error e, t) => (.error e, t)
      | (.ok r, t) =>
        (.ok (.full r.changed r.size (echoChecksum algorithm checksum) r.format r.id r.name
                p.state p.timeout p.uri p.wait), t)
    else (.error .nameErrorState, [])

/-- Mutating collaborator calls of the image module. -/
def isImgMut : ImgEvent → Bool
  | .createImage _ => true
  | .deleteImage _ _ _ => true
  | _ => false

def imgMutCount (t : List ImgEvent) : Nat := t.countP (fun e => isImgMut e)

/-- Downloads, digest computations and image creations: everything claim C1 forbids
once an image with the identity key exists. -/
def isDownloadVerifyOrCreate : ImgEvent → Bool
  | .download _ _ => true
  | .digestFile _ _ => true
  | .createImage _ => true
  | _ => false

def downloadVerifyCreateCount (t : List ImgEvent) : Nat :=
  t.countP (fun e => isDownloadVerifyOrCreate e)

/-! ## Concrete data for witnesses and counterexamples -/

def projA : Project := ⟨"pid1".toList, "devstack".toList⟩

def netA : Network := ⟨"nid1".toList, "ext_net".toList⟩

def fipA : FloatingIp := ⟨"203.0.113.2".toList⟩

def fipB : FloatingIp := ⟨"203.0.113.9".toList⟩

/-- A concrete floating-ip cloud: one network `ext_net`, one existing floating ip
`203.0.113.2`, creations yield `203.0.113.9`. -/
def envF : FipCloud :=
  { current_project := projA,
    get_project := fun _ => none,
    search_networks := fun noi _ => if noi = "ext_net".toList then [netA] else [],
    search_floating_ips := fun filt =>
      if filt.floating_ip_address = some ("203.0.113.2".toList) then [fipA] else [],
    create_ip := fun _ _ _ _ _ => fipB }

/-- A floating-ip cloud holding two floating ips under every filter. -/
def envFdup : FipCloud :=
  { current_project := projA,
    get_project := fun _ => none,
    search_networks := fun noi _ => if noi = "ext_net".toList then [netA] else [],
    search_floating_ips := fun _ => [fipA, fipB],
    create_ip := fun _ _ _ _ _ => fipB }

def imgA : Image := ⟨"aaaa".toList, "f".toList, 42, "qcow2".toList⟩

def imgB : Image := ⟨"bbbb".toList, "x.qcow2".toList, 7, "raw".toList⟩

/-- An image cloud whose repository holds exactly one image, reachable under the
name `f` (used by the C1 counterexample: the image exists, yet the url branch
fails format inference before looking it up). -/
def envC1 : ImgCloud :=
  { get_image := fun k => if k = some ("f".toList) then some imgA else none,
    create_image := fun _ => imgA,
    path_exists := fun _ => true,
    getsize := fun _ => 42,
    digest_from_file := fun _ _ => "d".toList,
    open_url := fun _ => ⟨none⟩,
    tmpdir := "/tmp/work".toList }

/-- An image cloud holding one image reachable by id `img1` or name `x.qcow2`. -/
def envI1 : ImgCloud :=
  { get_image := fun k =>
      if k = some ("img1".toList) ∨ k = some ("x.qcow2".toList) then some imgB else none,
    create_image := fun _ => imgB,
    path_exists := fun _ => true,
    getsize := fun _ => 7,
    digest_from_file := fun _ _ => "d".toList,
    open_url := fun _ => ⟨none⟩,
    tmpdir := "/tmp/work".toList }

/-- An image cloud with an empty repository; `create_image` reflects its arguments. -/
def envI0 : ImgCloud :=
  { get_image := fun _ => none,
    create_image := fun a =>
      ⟨"nid".toList, (match a.name with | some n => n | none => []), 7,
       (match a.disk_format with | some f => f | none => [])⟩,
    path_exists := fun _ => true,
    getsize := fun _ => 7,
    digest_from_file := fun _ _ => "d".toList,
    open_url := fun _ => ⟨none⟩,
    tmpdir := "/tmp/work".toList }

/-! ## Helper lemmas -/

theorem imgMutCount_nil : imgMutCount [] = 0 := rfl

theorem imgMutCount_cons (e : ImgEvent) (t : List ImgEvent) :
    imgMutCount (e :: t) = imgMutCount t + (if isImgMut e then 1 else 0) := by
  simp [imgMutCount, List.countP_cons]

theorem imgMutCount_append (a b : List ImgEvent) :
    imgMutCount (a ++ b) = imgMutCount a + imgMutCount b := by
  simp [imgMutCount, List.countP_append]

theorem fipMutCount_nil : fipMutCount [] = 0 := rfl

theorem fipMutCount_cons (e : FipEvent) (t : List FipEvent) :
    fipMutCount (e :: t) = fipMutCount t + (if isFipMut e then 1 else 0) := by
  simp [fipMutCount, List.countP_cons]

theorem fipMutCount_append (a b : List FipEvent) :
    fipMutCount (a ++ b) = fipMutCount a + fipMutCount b := by
  simp [fipMutCount, List.countP_append]

theorem fipQueryOrMutCount_append (a b : List FipEvent) :
    fipQueryOrMutCount (a ++ b) = fipQueryOrMutCount a + fipQueryOrMutCount b := by
  simp [fipQueryOrMutCount, List.countP_append]

/-- `get_project` performs no floating-ip query or mutation. -/
theorem get_project_no_query (pname : Option Str) (cloud : FipCloud) :
    fipQueryOrMutCount (get_project pname cloud).2 = 0 := by
  unfold get_project
  split
  · rfl
  · split
    · rfl
    · split
      · rfl
      · split <;> simp [fipQueryOrMutCount, isFipQueryOrMut, List.countP_cons]

/-- `get_project` issues no mutating call. -/
theorem get_project_no_mut (pname : Option Str) (cloud : FipCloud) :
    fipMutCount (get_project pname cloud).2 = 0 := by
  unfold get_project
  split
  · rfl
  · split
    · rfl
    · split
      · rfl
      · split <;> simp [fipMutCount, isFipMut, List.countP_cons]

/-- `get_network` issues no mutating call. -/
theorem get_network_no_mut (nname : Str) (pid : Str) (cloud : FipCloud) :
    fipMutCount (get_network nname pid cloud).2 = 0 := by
  simp only [get_network]
  split <;> simp [fipMutCount, isFipMut, List.countP_cons]

/-- A successful `splitFirstColon` is a genuine decomposition of the string. -/
theorem splitFirstColon_append {s a v : Str} (h : splitFirstColon s = some (a, v)) :
    s = a ++ ':' :: v := by
  induction s generalizing a with
  | nil => simp [splitFirstColon] at h
  | cons c cs ih =>
    by_cases hc : c = ':'
    · subst hc
      simp [splitFirstColon] at h
      obtain ⟨rfl, rfl⟩ := h
      rfl
    · simp [splitFirstColon, hc] at h
      cases hsp : splitFirstColon cs with
      | none => rw [hsp] at h; simp at h
      | some p =>
        rw [hsp] at h
        cases p with
        | mk a2 v2 =>
          simp at h
          obtain ⟨rfl, rfl⟩ := h
          simpa using ih hsp

/-- A string containing a colon splits. -/
theorem splitFirstColon_of_mem {s : Str} (h : ':' ∈ s) :
    ∃ a v, splitFirstColon s = some (a, v) := by
  induction s with
  | nil => simp at h
  | cons c cs ih =>
    by_cases hc : c = ':'
    · exact ⟨[], cs, by simp [splitFirstColon, hc]⟩
    · have hmem : ':' ∈ cs := by
        rcases List.mem_cons.mp h with h1 | h1
        · exact absurd h1.symm hc
        · exact h1
      obtain ⟨a, v, hav⟩ := ih hmem
      exact ⟨c :: a, v, by simp [splitFirstColon, hc, hav]⟩

/-- `get_project` can only fail with a project-not-found error. -/
theorem get_project_error_shape {pname : Option Str} {cloud : FipCloud} {e : FipError}
    {t : List FipEvent} (h : get_project pname cloud = (.error e, t)) :
    ∃ n, e = .projectNotFound n := by
  unfold get_project at h
  split at h
  · simp at h
  · split at h
    · simp at h
    · split at h
      · simp at h
      · split at h
        · simp at h
        · simp at h
          exact ⟨_, h.1.symm⟩

/-- `get_network` can only fail with its invalid-or-ambiguous error. -/
theorem get_network_error_shape {nname pid : Str} {cloud : FipCloud} {e : FipError}
    {t : List FipEvent} (h : get_network nname pid cloud = (.error e, t)) :
    e = .networkInvalidOrAmbiguous nname := by
  simp only [get_network] at h
  split at h
  · simp at h
    exact h.1.symm
  · simp at h
  · simp at h
    exact h.1.symm

/-! ## Claim theorems -/

/-- C2: For the floating IP operation with desired state present, after resolving project
and network, existing floating IPs matching {network, project, optional address} are
queried: if one or more exist the result is changed=false with the first match's address;
if none exist a single creation call is issued (address hint optional, caller's
wait/timeout forwarded) and the result is changed=true with the created floating IP's
address. -/
theorem fip_allocate_present
    (addr : Option Str) (nname : Str) (pname : Option Str) (timeout : Nat) (wait : Bool)
    (cloud : FipCloud) (project : Project) (network : Network) (t1 t2 : List FipEvent)
    (hp : get_project pname cloud = (.ok project, t1))
    (hn : get_network nname project.id cloud = (.ok network, t2)) :
    (∀ f rest, cloud.search_floating_ips (allocFilter addr network project) = f :: rest →
       allocate addr nname pname timeout wait cloud =
         (.ok ⟨false, some f.floating_ip_address, network.name, network.id,
               project.name, project.id⟩,
          t1 ++ t2 ++ [.searchFips (allocFilter addr network project)]))
    ∧ (cloud.search_floating_ips (allocFilter addr network project) = [] →
       allocate addr nname pname timeout wait cloud =
         (.ok ⟨true, some (cloud.create_ip addr network.id project.id timeout wait).floating_ip_address,
               network.name, network.id, project.name, project.id⟩,
          t1 ++ t2 ++ [.searchFips (allocFilter addr network project),
                       .createIp addr network.id project.id timeout wait])) := by
  constructor
  · intro f rest hf
    simp [allocate, hp, hn, hf]
  · intro hf
    simp [allocate, hp, hn, hf]

/-- Witness for C2: allocating with no pre-existing floating ip issues exactly one
creation call and reports changed=true with the created address. -/
theorem fip_allocate_present_witness :
    allocate none ("ext_net".toList) none 180 true envF =
      (.ok ⟨true, some fipB.floating_ip_address, netA.name, netA.id, projA.name, projA.id⟩,
       [.searchNetworks ("ext_net".toList) (some projA.id),
        .searchFips ⟨netA.id, projA.id, none⟩,
        .createIp none netA.id projA.id 180 true]) :=
  (fip_allocate_present none ("ext_net".toList) none 180 true envF projA netA []
    [.searchNetworks ("ext_net".toList) (some projA.id)]
    (by decide) (by decide)).2 (by decide)

/-- C3: For the floating IP operation with desired state absent, no match yields
changed=false echoing the requested address; exactly one match is deleted and yields
changed=true with its address; more than one match raises the assertion (an internal
error) rather than silently picking one; and the conditional re-check for more than
one match following the assertion is dead: `release` can never produce its
`ValueError('Floating ip address ... is ambiguous')`. -/
theorem fip_release_absent
    (addr : Option Str) (nname : Str) (pname : Option Str) (timeout : Nat) (wait : Bool)
    (cloud : FipCloud) (project : Project) (network : Network) (t1 t2 : List FipEvent)
    (hp : get_project pname cloud = (.ok project, t1))
    (hn : get_network nname project.id cloud = (.ok network, t2)) :
    (cloud.search_floating_ips (releaseFilter addr network project) = [] →
       release addr nname pname timeout wait cloud =
         (.ok ⟨false, addr, network.name, network.id, project.name, project.id⟩,
          t1 ++ t2 ++ [.searchFips (releaseFilter addr network project)]))
    ∧ (∀ fip, cloud.search_floating_ips (releaseFilter addr network project) = [fip] →
       release addr nname pname timeout wait cloud =
         (.ok ⟨true, some fip.floating_ip_address, network.name, network.id,
               project.name, project.id⟩,
          t1 ++ t2 ++ [.searchFips (releaseFilter addr network project),
                       .deleteIp fip.floating_ip_address]))
    ∧ (∀ f1 f2 rest,
       cloud.search_floating_ips (releaseFilter addr network project) = f1 :: f2 :: rest →
       release addr nname pname timeout wait cloud =
         (.error .assertionFailed,
          t1 ++ t2 ++ [.searchFips (releaseFilter addr network project)]))
    ∧ (∀ (a2 : Option Str) (n2 : Str) (p2 : Option Str) (t0 : Nat) (w2 : Bool)
         (c2 : FipCloud) (e : Option Str),
        (release a2 n2 p2 t0 w2 c2).1 ≠ .error (.fipAmbiguous e)) := by
  refine ⟨?_, ?_, ?_, ?_⟩
  · intro hf
    simp [release, hp, hn, hf]
  · intro fip hf
    simp [release, hp, hn, hf]
  · intro f1 f2 rest hf
    simp [release, hp, hn, hf]
  · intro a2 n2 p2 t0 w2 c2 e
    cases hq : get_project p2 c2 with
    | mk r1 tt1 =>
      cases r1 with
      | error e1 =>
        obtain ⟨n0, rfl⟩ := get_project_error_shape hq
        simp [release, hq]
      | ok project2 =>
        cases hw2 : get_network n2 project2.id c2 with
        | mk r2 tt2 =>
          cases r2 with
          | error e2 =>
            have := get_network_error_shape hw2
            subst this
            simp [release, hq, hw2]
          | ok network2 =>
            cases hf : c2.search_floating_ips (releaseFilter a2 network2 project2) with
            | nil => simp [release, hq, hw2, hf]
            | cons fip rest =>
              cases rest with
              | nil => simp [release, hq, hw2, hf]
              | cons f2 r3 => simp [release, hq, hw2, hf]

/-- Witness for C3: releasing the one existing floating ip deletes it and reports
changed=true with its address. -/
theorem fip_release_absent_witness :
    release (some ("203.0.113.2".toList)) ("ext_net".toList) none 180 true envF =
      (.ok ⟨true, some fipA.floating_ip_address, netA.name, netA.id, projA.name, projA.id⟩,
       [.searchNetworks ("ext_net".toList) (some projA.id),
        .searchFips ⟨netA.id, projA.id, some ("203.0.113.2".toList)⟩,
        .deleteIp fipA.floating_ip_address]) :=
  ((fip_release_absent (some ("203.0.113.2".toList)) ("ext_net".toList) none 180 true envF
      projA netA [] [.searchNetworks ("ext_net".toList) (some projA.id)]
      (by decide) (by decide)).2.1) fipA (by decide)

/-- C4: every network lookup by name-or-id (tenant-filtered when a project id is given)
with zero or more than one result raises an error, and no floating-ip query or mutation
follows in that invocation (for allocate as well as release); a single result succeeds
and that network is the one used in the subsequent floating-ip filter. -/
theorem fip_network_lookup_guard
    (addr : Option Str) (nname : Str) (pname : Option Str) (timeout : Nat) (wait : Bool)
    (cloud : FipCloud) (project : Project) (t1 : List FipEvent)
    (hp : get_project pname cloud = (.ok project, t1)) :
    ((cloud.search_networks nname (tenantFilter project.id)).length ≠ 1 →
       (allocate addr nname pname timeout wait cloud).1 =
           .error (.networkInvalidOrAmbiguous nname) ∧
       fipQueryOrMutCount (allocate addr nname pname timeout wait cloud).2 = 0 ∧
       (release addr nname pname timeout wait cloud).1 =
           .error (.networkInvalidOrAmbiguous nname) ∧
       fipQueryOrMutCount (release addr nname pname timeout wait cloud).2 = 0)
    ∧ (∀ n, cloud.search_networks nname (tenantFilter project.id) = [n] →
       usesNetwork (allocate addr nname pname timeout wait cloud).2 n.id = true ∧
       usesNetwork (release addr nname pname timeout wait cloud).2 n.id = true) := by
  have hq0 : fipQueryOrMutCount t1 = 0 := by
    have := get_project_no_query pname cloud
    rw [hp] at this
    exact this
  constructor
  · intro hlen
    have herr : get_network nname project.id cloud =
        (.error (.networkInvalidOrAmbiguous nname),
         [.searchNetworks nname (tenantFilter project.id)]) := by
      simp only [get_network]
      cases hnets : cloud.search_networks nname (tenantFilter project.id) with
      | nil => simp
      | cons n rest =>
        cases rest with
        | nil => rw [hnets] at hlen; simp at hlen
        | cons n2 rest2 => simp
    have htra : (allocate addr nname pname timeout wait cloud).2 =
        t1 ++ [.searchNetworks nname (tenantFilter project.id)] := by
      simp [allocate, hp, herr]
    have htrr : (release addr nname pname timeout wait cloud).2 =
        t1 ++ [.searchNetworks nname (tenantFilter project.id)] := by
      simp [release, hp, herr]
    refine ⟨?_, ?_, ?_, ?_⟩
    · simp [allocate, hp, herr]
    · rw [htra, fipQueryOrMutCount_append, hq0]
      rfl
    · simp [release, hp, herr]
    · rw [htrr, fipQueryOrMutCount_append, hq0]
      rfl
  · intro n hnets
    have hok : get_network nname project.id cloud =
        (.ok n, [.searchNetworks nname (tenantFilter project.id)]) := by
      simp [get_network, hnets]
    constructor
    · cases hf : cloud.search_floating_ips (allocFilter addr n project) with
      | nil =>
        have htr : (allocate addr nname pname timeout wait cloud).2 =
            t1 ++ [.searchNetworks nname (tenantFilter project.id),
                   .searchFips (allocFilter addr n project),
                   .createIp addr n.id project.id timeout wait] := by
          simp [allocate, hp, hok, hf]
        rw [htr]
        simp [usesNetwork, allocFilter]
      | cons f rest =>
        have htr : (allocate addr nname pname timeout wait cloud).2 =
            t1 ++ [.searchNetworks nname (tenantFilter project.id),
                   .searchFips (allocFilter addr n project)] := by
          simp [allocate, hp, hok, hf]
        rw [htr]
        simp [usesNetwork, allocFilter]
    · cases hf : cloud.search_floating_ips (releaseFilter addr n project) with
      | nil =>
        have htr : (release addr nname pname timeout wait cloud).2 =
            t1 ++ [.searchNetworks nname (tenantFilter project.id),
                   .searchFips (releaseFilter addr n project)] := by
          simp [release, hp, hok, hf]
        rw [htr]
        simp [usesNetwork, releaseFilter]
      | cons f rest =>
        cases rest with
        | nil =>
          have htr : (release addr nname pname timeout wait cloud).2 =
              t1 ++ [.searchNetworks nname (tenantFilter project.id),
                     .searchFips (releaseFilter addr n project),
                     .deleteIp f.floating_ip_address] := by
            simp [release, hp, hok, hf]
          rw [htr]
          simp [usesNetwork, releaseFilter]
        | cons f2 r3 =>
          have htr : (release addr nname pname timeout wait cloud).2 =
              t1 ++ [.searchNetworks nname (tenantFilter project.id),
                     .searchFips (releaseFilter addr n project)] := by
            simp [release, hp, hok, hf]
          rw [htr]
          simp [usesNetwork, releaseFilter]

/-- Witness for C4: a lookup of an unknown network fails both operations with no
floating-ip query or mutation, and a unique match is the network used. -/
theorem fip_network_lookup_guard_witness :
    ((allocate none ("nosuch".toList) none 180 true envF).1 =
        .error (.networkInvalidOrAmbiguous ("nosuch".toList)) ∧
     fipQueryOrMutCount (allocate none ("nosuch".toList) none 180 true envF).2 = 0 ∧
     (release none ("nosuch".toList) none 180 true envF).1 =
        .error (.networkInvalidOrAmbiguous ("nosuch".toList)) ∧
     fipQueryOrMutCount (release none ("nosuch".toList) none 180 true envF).2 = 0)
    ∧ usesNetwork (allocate none ("ext_net".toList) none 180 true envF).2 netA.id = true :=
  ⟨(fip_network_lookup_guard none ("nosuch".toList) none 180 true envF projA []
      (by decide)).1 (by decide),
   ((fip_network_lookup_guard none ("ext_net".toList) none 180 true envF projA []
      (by decide)).2 netA (by decide)).1⟩

/-- C5: an expected digest supplied for an image import is compared against the digest
computed over the local file before the upload call: a mismatch raises with no upload
issued (the trace holds the digest event only), while a match, or the absence of an
expected digest, proceeds to the single upload call. -/
theorem image_checksum_gate
    (algorithm format id name : Option Str) (c : Str) (timeout : Nat) (path : Str)
    (wait : Bool) (cloud : ImgCloud)
    (hex : cloud.path_exists path = true) :
    (c ≠ [] → c ≠ cloud.digest_from_file path algorithm →
       import_from_disk algorithm (some c) format id name timeout path wait cloud =
         (.error (.checksumMismatch (some c) (cloud.digest_from_file path algorithm)),
          [.digestFile path algorithm]))
    ∧ (c ≠ [] → c = cloud.digest_from_file path algorithm →
       cloud.get_image (pyKey id name) = none →
       import_from_disk algorithm (some c) format id name timeout path wait cloud =
         (.ok ((cloud.create_image (createArgs algorithm (some c) format id name timeout path wait)).id,
               (cloud.create_image (createArgs algorithm (some c) format id name timeout path wait)).size),
          [.digestFile path algorithm, .getImage (pyKey id name),
           .createImage (createArgs algorithm (some c) format id name timeout path wait)]))
    ∧ (cloud.get_image (pyKey id name) = none →
       import_from_disk algorithm none format id name timeout path wait cloud =
         (.ok ((cloud.create_image (createArgs algorithm none format id name timeout path wait)).id,
               (cloud.create_image (createArgs algorithm none format id name timeout path wait)).size),
          [.getImage (pyKey id name),
           .createImage (createArgs algorithm none format id name timeout path wait)])) := by
  refine ⟨?_, ?_, ?_⟩
  · intro hc hne
    simp [import_from_disk, hex, otruthy, hc, hne]
  · intro hc heq hmiss
    subst heq
    simp [import_from_disk, createImageStep, hex, otruthy, hc, hmiss]
  · intro hmiss
    simp [import_from_disk, createImageStep, hex, otruthy, hmiss]

/-- Witness for C5: a wrong sha256 value fails before any upload call is issued. -/
theorem image_checksum_gate_witness :
    import_from_disk (some ("sha256".toList)) (some ("ff".toList)) (some ("qcow2".toList))
        none (some ("n1".toList)) 60 ("/tmp/a.qcow2".toList) false envI0 =
      (.error (.checksumMismatch (some ("ff".toList)) ("d".toList)),
       [.digestFile ("/tmp/a.qcow2".toList) (some ("sha256".toList))]) :=
  (image_checksum_gate (some ("sha256".toList)) (some ("qcow2".toList)) none
      (some ("n1".toList)) ("ff".toList) 60 ("/tmp/a.qcow2".toList) false envI0
      (by decide)).1 (by decide) (by decide)

/-- C10: for the image operation with state present, a local locator, an explicit id but
no name, no explicit format, and no image matching that id, the code applies format
inference to the absent name: Python evaluates `os.path.splitext(None)`, which raises
an (untyped) TypeError rather than the ValueError used for resolution failures. -/
theorem image_present_id_only_type_error
    (algorithm checksum : Option Str) (i : Str) (timeout : Nat) (u : Str) (wait : Bool)
    (cloud : ImgCloud) (hurl : uriIsUrl u = false) (hi : i ≠ [])
    (hmiss : cloud.get_image (some i) = none) :
    import_ algorithm checksum none (some i) none timeout (some u) wait cloud =
      (.error .typeError, [.getImage (some i)]) := by
  simp [import_, hurl, importLocal, localKeyRes, pyKey, otruthy, hi, hmiss, localInferFormat]

/-- Witness for C10: id given, no name, no format, empty repository. -/
theorem image_present_id_only_type_error_witness :
    import_ none none none (some ("someid".toList)) none 60 (some ("/tmp/foo".toList)) false envI0 =
      (.error .typeError, [.getImage (some ("someid".toList))]) :=
  image_present_id_only_type_error none none ("someid".toList) 60 ("/tmp/foo".toList) false envI0
    (by decide) (by decide) (by decide)

/-- C9: for the image operation with desired state absent and no image matching the
identity key, the core result is changed=false with size and format both null (a
caller-supplied format is not echoed), while id is returned as given and name is the
given name or the one derived from the locator's basename. -/
theorem image_absent_missing_noop
    (p : ImgParams) (cloud : ImgCloud) (algorithm checksum : Option Str)
    (name1 key : Option Str)
    (hcm : p.check_mode = false) (hst : p.state = "absent".toList)
    (hac : parseChecksum p.checksum = .ok (algorithm, checksum))
    (hkey : deleteKeyRes p.id p.name p.uri = .ok (name1, key))
    (hmiss : cloud.get_image key = none) :
    imgCore p cloud =
      (.ok (.full false none (echoChecksum algorithm checksum) none p.id name1
             p.state p.timeout p.uri p.wait), [.getImage key]) := by
  have h1 : p.state ≠ "present".toList := by
    rw [hst]
    decide
  have h2 : ("absent".toList = "present".toList) = False := by decide
  simp [imgCore, hac, hcm, hst, h1, h2, delete, hkey, hmiss]

/-- Witness for C9: deleting an absent image echoes the id, derives the name from the
basename, and reports null size and format even though a format was supplied. -/
theorem image_absent_missing_noop_witness :
    imgCore ⟨none, some ("qcow2".toList), none, none, "absent".toList, 60,
             some ("/tmp/img7.raw".toList), false, false⟩ envI0 =
      (.ok (.full false none none none none (some ("img7.raw".toList))
             ("absent".toList) 60 (some ("/tmp/img7.raw".toList)) false),
       [.getImage (some ("img7.raw".toList))]) :=
  image_absent_missing_noop
    ⟨none, some ("qcow2".toList), none, none, "absent".toList, 60,
     some ("/tmp/img7.raw".toList), false, false⟩ envI0 none none
    (some ("img7.raw".toList)) (some ("img7.raw".toList))
    (by decide) (by decide) (by decide) (by decide) (by decide)

/-- Counterexample to C1 as stated: an image matching the identity key (no id, no name,
so the name `f` inferred from the locator) exists in the repository, yet for a remote
locator without an extension and with no explicit format the operation raises the
format resolution error instead of returning changed=false — because in the url branch
name and format inference run before the existence lookup. -/
theorem image_present_existing_cex :
    envC1.get_image (some ("f".toList)) = some imgA ∧
    urlNames (envC1.open_url ("https://e/f".toList)) ("https://e/f".toList) none =
      some ("f".toList, "f".toList) ∧
    import_ none none none none none 60 (some ("https://e/f".toList)) false envC1 =
      (.error .formatUnresolvedUrl, [.openUrl ("https://e/f".toList)]) := by
  decide

/-- C1 amended: with desired state present, if an image matching the identity key
(id if given, else name if given, else the name inferred from the locator) exists,
the operation returns changed=false with the existing image's id, name, size and
format, downloads nothing, computes no digest and issues no create call (the traces
are exactly [openUrl, getImage] resp. [getImage]) — provided that, for remote
locators, the name and format resolution that the code runs before the existence
lookup succeeds; for local locators only the identity key resolution is needed. -/
theorem image_present_existing_noop
    (algorithm checksum format id name : Option Str) (timeout : Nat) (u : Str) (wait : Bool)
    (cloud : ImgCloud) (image : Image) :
    (∀ filename name1 fmt, uriIsUrl u = true →
        urlNames (cloud.open_url u) u name = some (filename, name1) →
        inferFormat format name1 = some fmt →
        cloud.get_image (pyKey id (some name1)) = some image →
        import_ algorithm checksum format id name timeout (some u) wait cloud =
          (.ok ⟨false, some image.id, some image.name, some image.size, some image.disk_format⟩,
           [.openUrl u, .getImage (pyKey id (some name1))]))
    ∧ (∀ name1 key, uriIsUrl u = false →
        localKeyRes id name u = .ok (name1, key) →
        cloud.get_image key = some image →
        import_ algorithm checksum format id name timeout (some u) wait cloud =
          (.ok ⟨false, some image.id, some image.name, some image.size, some image.disk_format⟩,
           [.getImage key])) := by
  constructor
  · intro filename name1 fmt hurl hn hfmt him
    simp [import_, hurl, importUrl, hn, hfmt, him]
  · intro name1 key hurl hk him
    simp [import_, hurl, importLocal, hk, him]

/-- Witness for amended C1: importing over an existing image found by its id is a no-op
returning the existing image's attributes off a single lookup. -/
theorem image_present_existing_noop_witness :
    import_ none none none (some ("img1".toList)) none 60 (some ("/tmp/x.qcow2".toList)) false envI1 =
      (.ok ⟨false, some imgB.id, some imgB.name, some imgB.size, some imgB.disk_format⟩,
       [.getImage (some ("img1".toList))]) :=
  (image_present_existing_noop none none none (some ("img1".toList)) none 60
      ("/tmp/x.qcow2".toList) false envI1 imgB).2 none (some ("img1".toList))
    (by decide) (by decide) (by decide)

/-- `inferFormat` on a falsy explicit format is the dot-stripping splitext derivation. -/
theorem inferFormat_falsy {format : Option Str} (hf : otruthy format = false) (n : Str) :
    inferFormat format n = if stripDotFmt n = [] then none else some (stripDotFmt n) := by
  simp [inferFormat, stripDotFmt, hf]

/-- `localInferFormat` on a falsy explicit format and a present name. -/
theorem localInferFormat_falsy {format : Option Str} (hf : otruthy format = false) (n : Str) :
    localInferFormat format (some n) =
      (if stripDotFmt n = [] then .error .formatUnresolvedLocal else .ok (stripDotFmt n)) := by
  by_cases h : stripDotFmt n = []
  · simp [localInferFormat, hf, inferFormat_falsy (show otruthy none = false from rfl), h]
  · simp [localInferFormat, hf, inferFormat_falsy (show otruthy none = false from rfl), h]

/-- Counterexample to C6 as stated: the code's derivation is not `characters after the
last dot, leading dot stripped, empty means error`.  For the resolved name `foo.` that
rule yields the empty string and so demands a ResolutionError, yet the operation
succeeds and uploads with disk format `.` (the lone dot is not stripped); conversely
for the dotfile-style name `.bashrc` the rule yields `bashrc`, yet the operation
raises the format resolution error (splitext treats a leading dot as no extension). -/
theorem format_inference_cex :
    (import_ none none none none none 60 (some ("/tmp/foo.".toList)) false envI0).1 =
      .ok ⟨true, some ("nid".toList), some ("foo.".toList), some 7, some (".".toList)⟩ ∧
    (import_ none none none none none 60 (some ("/tmp/.bashrc".toList)) false envI0).1 =
      .error .formatUnresolvedLocal := by
  decide

/-- C6 amended: when no truthy explicit format is supplied, the format is derived from
the resolved name by Python splitext semantics — the extension starts at the last dot
of the final path component provided a non-dot character precedes it there, and the
leading dot is stripped only when the extension is longer than one character
(`stripDotFmt`); the operation raises the format resolution error exactly when this
derivation is empty (so `debian-10.qcow2` infers `qcow2` and an extensionless name
errors), and otherwise continues into the disk import with the derived format. -/
theorem format_inference_amended
    (algorithm checksum format id name : Option Str) (timeout : Nat) (u : Str) (wait : Bool)
    (cloud : ImgCloud) :
    (∀ n key, uriIsUrl u = false →
        localKeyRes id name u = .ok (some n, key) →
        cloud.get_image key = none →
        otruthy format = false →
        (stripDotFmt n = [] →
          import_ algorithm checksum format id name timeout (some u) wait cloud =
            (.error .formatUnresolvedLocal, [.getImage key]))
        ∧ (stripDotFmt n ≠ [] →
          import_ algorithm checksum format id name timeout (some u) wait cloud =
            (match import_from_disk algorithm checksum (some (stripDotFmt n)) id (some n)
                timeout u wait cloud with
             | (.error e, t2) => (.error e, .getImage key :: t2)
             | (.ok (newId, size), t2) =>
               (.ok ⟨true, some newId, some n, some size, some (stripDotFmt n)⟩,
                .getImage key :: t2))))
    ∧ (∀ filename name1, uriIsUrl u = true →
        urlNames (cloud.open_url u) u name = some (filename, name1) →
        otruthy format = false →
        stripDotFmt name1 = [] →
        import_ algorithm checksum format id name timeout (some u) wait cloud =
          (.error .formatUnresolvedUrl, [.openUrl u])) := by
  constructor
  · intro n key hurl hk hmiss hfmt
    constructor
    · intro hempty
      simp [import_, hurl, importLocal, hk, hmiss, localInferFormat_falsy hfmt, hempty]
    · intro hne
      cases hd : import_from_disk algorithm checksum (some (stripDotFmt n)) id (some n)
          timeout u wait cloud with
      | mk r t2 =>
        cases r with
        | error e =>
          simp [import_, hurl, importLocal, hk, hmiss, localInferFormat_falsy hfmt, hne, hd]
        | ok pr =>
          cases pr with
          | mk newId size =>
            simp [import_, hurl, importLocal, hk, hmiss, localInferFormat_falsy hfmt, hne, hd]
  · intro filename name1 hurl hn hfmt hempty
    simp [import_, hurl, importUrl, hn, inferFormat_falsy hfmt, hempty]

/-- Witness for amended C6: `/tmp/debian-10` (no extension) raises the format
resolution error, `/tmp/debian-10.qcow2` proceeds and uploads with format `qcow2`. -/
theorem format_inference_amended_witness :
    import_ none none none none none 60 (some ("/tmp/debian-10".toList)) false envI0 =
      (.error .formatUnresolvedLocal, [.getImage (some ("debian-10".toList))]) ∧
    import_ none none none none none 60 (some ("/tmp/debian-10.qcow2".toList)) false envI0 =
      (match import_from_disk none none (some ("qcow2".toList)) none
          (some ("debian-10.qcow2".toList)) 60 ("/tmp/debian-10.qcow2".toList) false envI0 with
       | (.error e, t2) => (.error e, .getImage (some ("debian-10.qcow2".toList)) :: t2)
       | (.ok (newId, size), t2) =>
         (.ok ⟨true, some newId, some ("debian-10.qcow2".toList), some size,
               some ("qcow2".toList)⟩,
          .getImage (some ("debian-10.qcow2".toList)) :: t2)) :=
  ⟨((format_inference_amended none none none none none 60 ("/tmp/debian-10".toList) false
        envI0).1 ("debian-10".toList) (some ("debian-10".toList))
      (by decide) (by decide) (by decide) (by decide)).1 (by decide),
   ((format_inference_amended none none none none none 60 ("/tmp/debian-10.qcow2".toList) false
        envI0).1 ("debian-10.qcow2".toList) (some ("debian-10.qcow2".toList))
      (by decide) (by decide) (by decide) (by decide)).2 (by decide)⟩

/-- Counterexample to C7 as stated: not every input reaches the check-mode echo.  The
image operation splits the checksum parameter before the check-mode branch, so a
checksum without a colon fails parameter validation even in check/dry-run mode. -/
theorem check_mode_cex :
    imgCore ⟨some ("abc".toList), none, none, none, "present".toList, 60,
             some ("/x".toList), false, true⟩ envI0 =
      (.error .checksumParamFormat, []) := by
  decide

/-- C7 amended: in check/dry-run mode both operations issue no collaborator call and
return changed=false with the input parameters echoed, provided (for the image
operation) that a non-empty checksum parameter contains a colon; a truthy checksum is
then echoed verbatim, while an absent or empty one is echoed as null. -/
theorem check_mode_noop (pf : FipParams) (pi : ImgParams) (cf : FipCloud) (ci : ImgCloud)
    (hf : pf.check_mode = true) (hi : pi.check_mode = true)
    (hok : pi.checksum = none ∨ pi.checksum = some [] ∨
           ∃ s, pi.checksum = some s ∧ ':' ∈ s) :
    fipCore pf cf = (.ok (.checkMode false pf.floating_ip_address pf.floating_network_name
        pf.project_name pf.state pf.timeout pf.wait), [])
    ∧ imgCore pi ci = (.ok (.checkMode false (if otruthy pi.checksum then pi.checksum else none)
        pi.format pi.id pi.name pi.state pi.timeout pi.uri pi.wait), []) := by
  constructor
  · simp [fipCore, hf]
  · rcases hok with h | h | ⟨s, hs, hcol⟩
    · simp [imgCore, parseChecksum, h, hi, echoChecksum, otruthy]
    · simp [imgCore, parseChecksum, h, hi, echoChecksum, otruthy]
    · obtain ⟨a, v, hsplit⟩ := splitFirstColon_of_mem hcol
      have hsn : s ≠ [] := by
        rintro rfl
        simp at hcol
      have hrec : a ++ ':' :: v = s := (splitFirstColon_append hsplit).symm
      simp [imgCore, parseChecksum, hs, otruthy, hsn, hsplit, hi, echoChecksum, hrec]

/-- Witness for amended C7: both cores echo their inputs with changed=false and an
empty trace in check mode; the well-formed checksum is echoed verbatim. -/
theorem check_mode_noop_witness :
    fipCore ⟨some ("203.0.113.2".toList), "ext_net".toList, none, "present".toList,
             180, true, true⟩ envF =
      (.ok (.checkMode false (some ("203.0.113.2".toList)) ("ext_net".toList) none
             ("present".toList) 180 true), [])
    ∧ imgCore ⟨some ("sha256:ff".toList), none, none, none, "present".toList, 60,
               some ("/x".toList), false, true⟩ envI0 =
      (.ok (.checkMode false (some ("sha256:ff".toList)) none none none
             ("present".toList) 60 (some ("/x".toList)) false), []) := by
  have h := check_mode_noop
    ⟨some ("203.0.113.2".toList), "ext_net".toList, none, "present".toList, 180, true, true⟩
    ⟨some ("sha256:ff".toList), none, none, none, "present".toList, 60,
     some ("/x".toList), false, true⟩
    envF envI0 rfl rfl (Or.inr (Or.inr ⟨"sha256:ff".toList, rfl, by decide⟩))
  exact ⟨h.1, by simpa using h.2⟩

/-- The create step issues at most one mutating call, and none when it fails. -/
theorem mut_createImageStep (a c f i n : Option Str) (t : Nat) (p : Str) (w : Bool)
    (cloud : ImgCloud) :
    imgMutCount (createImageStep a c f i n t p w cloud).2 ≤ 1 ∧
    (isErr (createImageStep a c f i n t p w cloud).1 = true →
      imgMutCount (createImageStep a c f i n t p w cloud).2 = 0) := by
  cases him : cloud.get_image (pyKey i n) with
  | some img =>
    simp [createImageStep, him, imgMutCount, isImgMut, List.countP_cons, isErr]
  | none =>
    simp [createImageStep, him, imgMutCount, isImgMut, List.countP_cons, isErr]

/-- `import_from_disk` issues at most one mutating call, and none when it fails. -/
theorem mut_import_from_disk (a c f i n : Option Str) (t : Nat) (p : Str) (w : Bool)
    (cloud : ImgCloud) :
    imgMutCount (import_from_disk a c f i n t p w cloud).2 ≤ 1 ∧
    (isErr (import_from_disk a c f i n t p w cloud).1 = true →
      imgMutCount (import_from_disk a c f i n t p w cloud).2 = 0) := by
  obtain ⟨h1, h2⟩ := mut_createImageStep a c f i n t p w cloud
  by_cases hex : cloud.path_exists p = false
  · simp [import_from_disk, hex, imgMutCount, isErr]
  · by_cases hck : otruthy c = true
    · by_cases hmm : c ≠ some (cloud.digest_from_file p (a : Option Str))
      · simp [import_from_disk, hex, hck, hmm, imgMutCount, isImgMut, List.countP_cons, isErr]
      · cases hcs : createImageStep a c f i n t p w cloud with
        | mk r t2 =>
          rw [hcs] at h1 h2
          constructor
          · simpa [import_from_disk, hex, hck, hmm, hcs, imgMutCount_cons, isImgMut] using h1
          · intro he
            have he2 : isErr r = true := by
              simpa [import_from_disk, hex, hck, hmm, hcs] using he
            simpa [import_from_disk, hex, hck, hmm, hcs, imgMutCount_cons, isImgMut]
              using h2 he2
    · have hck2 : otruthy c = false := by
        revert hck
        cases otruthy c <;> simp
      simp only [import_from_disk, hex, hck2, if_false, Bool.false_eq_true, if_neg,
        not_false_eq_true]
      constructor
      · simpa [hex] using h1
      · intro he
        apply h2
        revert he
        split <;> simp_all

/-- The url import branch issues at most one mutating call, and none when it fails. -/
theorem mut_importUrl (a c f i n : Option Str) (t : Nat) (u : Str) (w : Bool)
    (cloud : ImgCloud) :
    imgMutCount (importUrl a c f i n t u w cloud).2 ≤ 1 ∧
    (isErr (importUrl a c f i n t u w cloud).1 = true →
      imgMutCount (importUrl a c f i n t u w cloud).2 = 0) := by
  cases hn : urlNames (cloud.open_url u) u n with
  | none => simp [importUrl, hn, imgMutCount, isImgMut, List.countP_cons, isErr]
  | some pr =>
    cases pr with
    | mk filename name1 =>
      cases hf : inferFormat f name1 with
      | none => simp [importUrl, hn, hf, imgMutCount, isImgMut, List.countP_cons, isErr]
      | some fmt =>
        cases him : cloud.get_image (pyKey i (some name1)) with
        | some image =>
          simp [importUrl, hn, hf, him, imgMutCount, isImgMut, List.countP_cons, isErr]
        | none =>
          obtain ⟨h1, h2⟩ := mut_import_from_disk a c (some fmt) i (some name1) t
            (pathJoin cloud.tmpdir filename) w cloud
          cases hd : import_from_disk a c (some fmt) i (some name1) t
              (pathJoin cloud.tmpdir filename) w cloud with
          | mk r t2 =>
            rw [hd] at h1 h2
            cases r with
            | error e =>
              have h0 : imgMutCount t2 = 0 := h2 rfl
              simp [importUrl, hn, hf, him, hd, imgMutCount_append, imgMutCount_cons,
                imgMutCount_nil, isImgMut, isErr, h0]
            | ok pr2 =>
              cases pr2 with
              | mk newId size =>
                constructor
                · simpa [importUrl, hn, hf, him, hd, imgMutCount_append, imgMutCount_cons,
                    imgMutCount_nil, isImgMut] using h1
                · intro he
                  simp [importUrl, hn, hf, him, hd, isErr] at he
  
/-- The local import branch issues at most one mutating call, and none when it fails. -/
theorem mut_importLocal (a c f i n : Option Str) (t : Nat) (u : Str) (w : Bool)
    (cloud : ImgCloud) :
    imgMutCount (importLocal a c f i n t u w cloud).2 ≤ 1 ∧
    (isErr (importLocal a c f i n t u w cloud).1 = true →
      imgMutCount (importLocal a c f i n t u w cloud).2 = 0) := by
  cases hk : localKeyRes i n u with
  | error e => simp [importLocal, hk, imgMutCount, isErr]
  | ok pr =>
    cases pr with
    | mk name1 key =>
      cases him : cloud.get_image key with
      | some image =>
        simp [importLocal, hk, him, imgMutCount, isImgMut, List.countP_cons, isErr]
      | none =>
        cases hlf : localInferFormat f name1 with
        | error e =>
          simp [importLocal, hk, him, hlf, imgMutCount, isImgMut, List.countP_cons, isErr]
        | ok fmt =>
          obtain ⟨h1, h2⟩ := mut_import_from_disk a c (some fmt) i name1 t u w cloud
          cases hd : import_from_disk a c (some fmt) i name1 t u w cloud with
          | mk r t2 =>
            rw [hd] at h1 h2
            cases r with
            | error e =>
              have h0 : imgMutCount t2 = 0 := h2 rfl
              simp [importLocal, hk, him, hlf, hd, imgMutCount_cons, isImgMut, isErr, h0]
            | ok pr2 =>
              cases pr2 with
              | mk newId size =>
                constructor
                · simpa [importLocal, hk, him, hlf, hd, imgMutCount_cons, isImgMut] using h1
                · intro he
                  simp [importLocal, hk, him, hlf, hd, isErr] at he

/-- `import_` issues at most one mutating call, and none when it fails. -/
theorem mut_import (a c f i n : Option Str) (t : Nat) (uri : Option Str) (w : Bool)
    (cloud : ImgCloud) :
    imgMutCount (import_ a c f i n t uri w cloud).2 ≤ 1 ∧
    (isErr (import_ a c f i n t uri w cloud).1 = true →
      imgMutCount (import_ a c f i n t uri w cloud).2 = 0) := by
  cases uri with
  | none => simp [import_, imgMutCount, isErr]
  | some u =>
    by_cases hurl : uriIsUrl u = true
    · simpa [import_, hurl] using mut_importUrl a c f i n t u w cloud
    · have hurl2 : uriIsUrl u = false := by
        revert hurl
        cases uriIsUrl u <;> simp
      simpa [import_, hurl2] using mut_importLocal a c f i n t u w cloud

/-- `delete` issues at most one mutating call, and none when it fails. -/
theorem mut_delete (a c f i n : Option Str) (t : Nat) (uri : Option Str) (w : Bool)
    (cloud : ImgCloud) :
    imgMutCount (delete a c f i n t uri w cloud).2 ≤ 1 ∧
    (isErr (delete a c f i n t uri w cloud).1 = true →
      imgMutCount (delete a c f i n t uri w cloud).2 = 0) := by
  cases hk : deleteKeyRes i n uri with
  | error e => simp [delete, hk, imgMutCount, isErr]
  | ok pr =>
    cases pr with
    | mk name1 key =>
      cases him : cloud.get_image key with
      | none => simp [delete, hk, him, imgMutCount, isImgMut, List.countP_cons, isErr]
      | some image =>
        simp [delete, hk, him, imgMutCount, isImgMut, List.countP_cons, isErr]

/-- `core` of the image module issues at most one mutating call, and none on failure. -/
theorem mut_imgCore (p : ImgParams) (cloud : ImgCloud) :
    imgMutCount (imgCore p cloud).2 ≤ 1 ∧
    (isErr (imgCore p cloud).1 = true → imgMutCount (imgCore p cloud).2 = 0) := by
  cases hac : parseChecksum p.checksum with
  | error e => simp [imgCore, hac, imgMutCount, isErr]
  | ok pr =>
    cases pr with
    | mk algorithm checksum =>
      by_cases hcm : p.check_mode
      · simp [imgCore, hac, hcm, imgMutCount, isErr]
      · by_cases hst : p.state = "present".toList
        · obtain ⟨h1, h2⟩ := mut_import algorithm checksum p.format p.id p.name
            p.timeout p.uri p.wait cloud
          cases hi : import_ algorithm checksum p.format p.id p.name p.timeout
              p.uri p.wait cloud with
          | mk r t =>
            rw [hi] at h1 h2
            cases r with
            | error e =>
              have h0 := h2 rfl
              simp [imgCore, hac, hcm, hst, hi, isErr, h0]
            | ok r0 =>
              constructor
              · simpa [imgCore, hac, hcm, hst, hi] using h1
              · intro he
                simp [imgCore, hac, hcm, hst, hi, isErr] at he
        · by_cases hab : p.state = "absent".toList
          · obtain ⟨h1, h2⟩ := mut_delete algorithm checksum p.format p.id p.name
              p.timeout p.uri p.wait cloud
            cases hi : delete algorithm checksum p.format p.id p.name p.timeout
                p.uri p.wait cloud with
            | mk r t =>
              rw [hi] at h1 h2
              cases r with
              | error e =>
                have h0 := h2 rfl
                simp [imgCore, hac, hcm, hst, hab, hi, isErr, h0]
              | ok r0 =>
                constructor
                · simpa [imgCore, hac, hcm, hst, hab, hi] using h1
                · intro he
                  simp [imgCore, hac, hcm, hst, hab, hi, isErr] at he
          · simp only [imgCore, hac]
            rw [if_neg hcm, if_neg hst, if_neg hab]
            simp [imgMutCount, isErr]

/-- `allocate` issues at most one mutating call, and none when it fails. -/
theorem mut_allocate (addr : Option Str) (nname : Str) (pname : Option Str)
    (timeout : Nat) (wait : Bool) (cloud : FipCloud) :
    fipMutCount (allocate addr nname pname timeout wait cloud).2 ≤ 1 ∧
    (isErr (allocate addr nname pname timeout wait cloud).1 = true →
      fipMutCount (allocate addr nname pname timeout wait cloud).2 = 0) := by
  cases hp : get_project pname cloud with
  | mk r1 t1 =>
    have hm1 : fipMutCount t1 = 0 := by
      have := get_project_no_mut pname cloud
      rw [hp] at this
      exact this
    cases r1 with
    | error e => simp [allocate, hp, isErr, hm1]
    | ok project =>
      cases hn : get_network nname project.id cloud with
      | mk r2 t2 =>
        have hm2 : fipMutCount t2 = 0 := by
          have := get_network_no_mut nname project.id cloud
          rw [hn] at this
          exact this
        cases r2 with
        | error e =>
          simp [allocate, hp, hn, isErr, fipMutCount_append, hm1, hm2]
        | ok network =>
          cases hf : cloud.search_floating_ips (allocFilter addr network project) with
          | nil =>
            simp [allocate, hp, hn, hf, isErr, fipMutCount_append, fipMutCount_cons,
              fipMutCount_nil, isFipMut, hm1, hm2]
          | cons f rest =>
            simp [allocate, hp, hn, hf, isErr, fipMutCount_append, fipMutCount_cons,
              fipMutCount_nil, isFipMut, hm1, hm2]

/-- `release` issues at most one mutating call, and none when it fails. -/
theorem mut_release (addr : Option Str) (nname : Str) (pname : Option Str)
    (timeout : Nat) (wait : Bool) (cloud : FipCloud) :
    fipMutCount (release addr nname pname timeout wait cloud).2 ≤ 1 ∧
    (isErr (release addr nname pname timeout wait cloud).1 = true →
      fipMutCount (release addr nname pname timeout wait cloud).2 = 0) := by
  cases hp : get_project pname cloud with
  | mk r1 t1 =>
    have hm1 : fipMutCount t1 = 0 := by
      have := get_project_no_mut pname cloud
      rw [hp] at this
      exact this
    cases r1 with
    | error e => simp [release, hp, isErr, hm1]
    | ok project =>
      cases hn : get_network nname project.id cloud with
      | mk r2 t2 =>
        have hm2 : fipMutCount t2 = 0 := by
          have := get_network_no_mut nname project.id cloud
          rw [hn] at this
          exact this
        cases r2 with
        | error e =>
          simp [release, hp, hn, isErr, fipMutCount_append, hm1, hm2]
        | ok network =>
          cases hf : cloud.search_floating_ips (releaseFilter addr network project) with
          | nil =>
            simp [release, hp, hn, hf, isErr, fipMutCount_append, fipMutCount_cons,
              fipMutCount_nil, isFipMut, hm1, hm2]
          | cons fip rest =>
            cases rest with
            | nil =>
              simp [release, hp, hn, hf, isErr, fipMutCount_append, fipMutCount_cons,
                fipMutCount_nil, isFipMut, hm1, hm2]
            | cons f2 r3 =>
              simp [release, hp, hn, hf, isErr, fipMutCount_append, fipMutCount_cons,
                fipMutCount_nil, isFipMut, hm1, hm2]

/-- `core` of the floating-ip module issues at most one mutating call, none on failure. -/
theorem mut_fipCore (p : FipParams) (cloud : FipCloud) :
    fipMutCount (fipCore p cloud).2 ≤ 1 ∧
    (isErr (fipCore p cloud).1 = true → fipMutCount (fipCore p cloud).2 = 0) := by
  by_cases hcm : p.check_mode
  · simp [fipCore, hcm, fipMutCount, isErr]
  · by_cases hst : p.state = "present".toList
    · obtain ⟨h1, h2⟩ := mut_allocate p.floating_ip_address p.floating_network_name
        p.project_name p.timeout p.wait cloud
      cases ha : allocate p.floating_ip_address p.floating_network_name p.project_name
          p.timeout p.wait cloud with
      | mk r t =>
        rw [ha] at h1 h2
        cases r with
        | error e =>
          have h0 := h2 rfl
          simp [fipCore, hcm, hst, ha, isErr, h0]
        | ok r0 =>
          constructor
          · simpa [fipCore, hcm, hst, ha] using h1
          · intro he
            simp [fipCore, hcm, hst, ha, isErr] at he
    · by_cases hab : p.state = "absent".toList
      · obtain ⟨h1, h2⟩ := mut_release p.floating_ip_address p.floating_network_name
          p.project_name p.timeout p.wait cloud
        cases ha : release p.floating_ip_address p.floating_network_name p.project_name
            p.timeout p.wait cloud with
        | mk r t =>
          rw [ha] at h1 h2
          cases r with
          | error e =>
            have h0 := h2 rfl
            simp [fipCore, hcm, hst, hab, ha, isErr, h0]
          | ok r0 =>
            constructor
            · simpa [fipCore, hcm, hst, hab, ha] using h1
            · intro he
              simp [fipCore, hcm, hst, hab, ha, isErr] at he
      · simp only [fipCore]
        rw [if_neg hcm, if_neg hst, if_neg hab]
        simp [fipMutCount, isErr]

/-- C8: every invocation of either operation issues at most one mutating collaborator
call (create/delete of a floating ip, create/delete of an image), and a failing
invocation issues none — the single mutating call only happens after all resolution
and verification succeeded, so no failure leaves a partially created resource. -/
theorem single_mutation_invariant (pf : FipParams) (pi : ImgParams)
    (cf : FipCloud) (ci : ImgCloud) :
    (fipMutCount (fipCore pf cf).2 ≤ 1 ∧
     (isErr (fipCore pf cf).1 = true → fipMutCount (fipCore pf cf).2 = 0)) ∧
    (imgMutCount (imgCore pi ci).2 ≤ 1 ∧
     (isErr (imgCore pi ci).1 = true → imgMutCount (imgCore pi ci).2 = 0)) :=
  ⟨mut_fipCore pf cf, mut_imgCore pi ci⟩

/-- Witness for C8 at a concrete invocation pair. -/
theorem single_mutation_invariant_witness :
    fipMutCount (fipCore ⟨none, "ext_net".toList, none, "present".toList, 180, true, false⟩
        envF).2 ≤ 1 ∧
    imgMutCount (imgCore ⟨none, none, none, none, "present".toList, 60,
        some ("/tmp/a.qcow2".toList), false, false⟩ envI0).2 ≤ 1 :=
  ⟨(single_mutation_invariant
      ⟨none, "ext_net".toList, none, "present".toList, 180, true, false⟩
      ⟨none, none, none, none, "present".toList, 60, some ("/tmp/a.qcow2".toList),
       false, false⟩ envF envI0).1.1,
   (single_mutation_invariant
      ⟨none, "ext_net".toList, none, "present".toList, 180, true, false⟩
      ⟨none, none, none, none, "present".toList, 60, some ("/tmp/a.qcow2".toList),
       false, false⟩ envF envI0).2.1⟩
